import Mathlib

/-
Verification of the tag REST resource (silly_blog/app/resources/tag.py).

Shallow embedding notes:
* The handler logic is translated directly from `TagResource` in
  src/silly_blog/app/resources/tag.py.  The HTTP framework, the
  authentication decorator and the JSON-envelope decorator are external
  collaborators; handlers are modelled at the point where they receive the
  already-extracted body / query arguments of an authenticated request.
* The SQLAlchemy session / model layer (models.py is not part of the
  sources) is represented by persistence functions passed to the handlers;
  where a claim needs the store's concrete behaviour, a definition marked
  "Modelled from the spec:" supplies it.
* Database errors are represented by `DBErr`: every value stands for a
  SQLAlchemy `DatabaseError`, and `integrity = true` marks the
  `IntegrityError` subclass (the only class `post`/`put` catch, while
  `delete` catches any `DatabaseError`).
* Strings are Lean `String`s; `LIKE` patterns and substring scanning work
  on the underlying `List Char`.
* Timestamps are `Nat`; the external `parse_isotime` utility is a
  parameter of the list handler.
-/

set_option autoImplicit false

namespace SillyBlog

/-! ### Characters and strings -/

/-- ASCII lower-casing of a character, the fragment of Python's
`str.lower` exercised by the error reasons the code inspects. -/
def lowerChar (c : Char) : Char :=
  if 65 ≤ c.toNat ∧ c.toNat ≤ 90 then Char.ofNat (c.toNat + 32) else c

/-- Lower-case a string into its character list. -/
def lowerStr (s : String) : List Char := s.data.map lowerChar

/-- `beginsWith p l` is true iff `p` is an initial segment of `l`. -/
def beginsWith : List Char → List Char → Bool
  | [], _ => true
  | _ :: _, [] => false
  | a :: as, b :: bs => a == b && beginsWith as bs

/-- All suffixes of a character list, from the list itself down to `[]`. -/
def suffixes : List Char → List (List Char)
  | [] => [[]]
  | c :: cs => (c :: cs) :: suffixes cs

/-- `listContains sub l`: `sub` occurs contiguously inside `l`
(Python's `sub in l`). -/
def listContains (sub l : List Char) : Bool :=
  (suffixes l).any (fun t => beginsWith sub t)

/-- SQL `LIKE` pattern matching: `%` matches any (possibly empty) run of
characters, `_` matches exactly one character, any other pattern
character matches itself, case-sensitively. -/
def likeMatch : List Char → List Char → Bool
  | [], s => s.isEmpty
  | p :: ps, s =>
    if p = '%' then (suffixes s).any (fun t => likeMatch ps t)
    else
      match s with
      | [] => false
      | c :: s' => (p == '_' || p == c) && likeMatch ps s'

/-- Python's `%r` formatting of a string, as used by
`make_error_response(404, "Tag %r not found" % tag_id)` and the
"Unknown sort/direction/page/pagesize" messages. -/
def pyRepr (s : String) : String := "'" ++ s ++ "'"

/-- Whitespace stripped by Python's `int(str)` conversion. -/
def pySpace (c : Char) : Bool :=
  c = ' ' || c = '\t' || c = '\n' || c = '\r' || c = '\x0b' || c = '\x0c'

/-- Strip leading and trailing whitespace. -/
def trimChars (cs : List Char) : List Char :=
  ((cs.dropWhile pySpace).reverse.dropWhile pySpace).reverse

/-- Value of a non-empty all-digit character list. -/
def digitsVal? (cs : List Char) : Option Nat :=
  if cs.isEmpty then none
  else if cs.all (fun c => c.isDigit) then
    some (cs.foldl (fun acc c => acc * 10 + (c.toNat - 48)) 0)
  else none

/-- Python's `int(str)`: optional surrounding whitespace, optional sign,
decimal digits; anything else raises `ValueError` (`none` here). -/
def pyInt? (s : String) : Option Int :=
  match trimChars s.data with
  | '-' :: rest => (digitsVal? rest).map (fun n => -(n : Int))
  | '+' :: rest => (digitsVal? rest).map (fun n => (n : Int))
  | cs => (digitsVal? cs).map (fun n => (n : Int))

/-! ### Data model -/

/-- The Tag entity: `id` is the store-assigned primary key, `name` the
unique tag name, `created_at`/`updated_at` store-maintained timestamps
(spec section 3; the model class itself lives in models.py, outside the
given sources). -/
structure Tag where
  id : String
  name : String
  created_at : Nat
  updated_at : Nat
deriving DecidableEq, Repr

/-- The committed store state: the table of tags. -/
abbrev Store := List Tag

/-- A database error.  Every value represents a SQLAlchemy
`DatabaseError`; `integrity = true` marks the `IntegrityError` subclass.
`reason` is `str(ex.orig)`, `code` is `ex.code`. -/
structure DBErr where
  integrity : Bool
  reason : String
  code : String
deriving DecidableEq, Repr

/-- Structured field-validation errors produced by the marshmallow
schemas for the `name` field. -/
inductive FieldError where
  | nameMissing
  | nameTooShort
  | nameTooLong
deriving DecidableEq, Repr

/-- Observable session actions performed by a handler besides the
persistence call itself: `db.session.rollback()` and `LOG.exception`. -/
inductive Action where
  | rollback
  | log
deriving DecidableEq, Repr

/-- Handler responses:
`tagsList` is `{"tags": [...], "total": n}`, `tagItem` is `{"tag": ...}`,
`error` is `make_error_response(status, message)`, `errorFields` is
`make_error_response(400, result.errors)`, `errorCode` is
`make_error_response(status, message, code)`, `deleted` is `(None, 204)`,
and `unhandled e` records an exception that escapes the handler. -/
inductive Response where
  | tagsList (tags : List Tag) (total : Nat)
  | tagItem (tag : Tag)
  | error (status : Nat) (message : String)
  | errorFields (status : Nat) (errors : List FieldError)
  | errorCode (status : Nat) (message : String) (code : String)
  | deleted
  | unhandled (e : DBErr)
deriving DecidableEq, Repr

/-- Result of running a handler: the response, the committed store state
afterwards, and the observable session actions. -/
structure HResult where
  resp : Response
  store : Store
  actions : List Action
deriving DecidableEq, Repr

/-! ### Schemas (CreateTagSchema / UpdateTagSchema) -/

/-- `CreateTagSchema`: `name = fields.Str(required=True,
validate=Length(min=1, max=64))`.  The body is modelled by its `name`
entry (`none` when the field is absent). -/
def createSchemaLoad (body : Option String) : Except (List FieldError) String :=
  match body with
  | none => .error [.nameMissing]
  | some s =>
    if s.length < 1 then .error [.nameTooShort]
    else if s.length > 64 then .error [.nameTooLong]
    else .ok s

/-- `UpdateTagSchema`: `name = fields.Str(validate=Length(min=1,
max=64))` — optional, so an absent field loads as `{}`. -/
def updateSchemaLoad (body : Option String) :
    Except (List FieldError) (Option String) :=
  match body with
  | none => .ok none
  | some s =>
    if s.length < 1 then .error [.nameTooShort]
    else if s.length > 64 then .error [.nameTooLong]
    else .ok (some s)

/-! ### List pipeline (`TagResource.get`) -/

/-- `Tag.query.get(tag_id)`: primary-key lookup. -/
def storeGet (store : Store) (tag_id : String) : Option Tag :=
  store.find? (fun t => t.id == tag_id)

/-- The name filter: `query.filter(Tag.name.like('%' + name + '%'))`
(only applied when the `name` query argument is present). -/
def filterByName (nameArg : Option String) (store : Store) : Store :=
  match nameArg with
  | none => store
  | some v => store.filter (fun t => likeMatch ('%' :: (v.data ++ ['%'])) t.name.data)

/-- The `since` step: absent `since` leaves the query unchanged; a
present one is parsed by the external `parse_isotime` (`pi`), a
`ValueError` becoming a 400 whose message is `str(ex)`, success adding
the filter `Tag.updated_at >= since`. -/
def sinceFilter (pi : String → Except String Nat) (sinceArg : Option String)
    (q : Store) : Except String Store :=
  match sinceArg with
  | none => .ok q
  | some s =>
    match pi s with
    | .error msg => .error msg
    | .ok ts => .ok (q.filter (fun t => decide (ts ≤ t.updated_at)))

/-- Sortable Tag attributes.  Modelled from the spec: `getattr(Tag,
sort)` is an `InstrumentedAttribute` exactly for the Tag model's columns
`id`, `name`, `created_at`, `updated_at` (spec section 3; models.py is
not part of the sources). -/
inductive SortField where
  | id
  | name
  | createdAt
  | updatedAt
deriving DecidableEq, Repr

/-- Resolve the `sort` argument to a sortable attribute. -/
def sortField? : String → Option SortField
  | "id" => some .id
  | "name" => some .name
  | "created_at" => some .createdAt
  | "updated_at" => some .updatedAt
  | _ => none

/-- Modelled from the spec: `getattr(sort_attribute, direction)()`
yields an order-by `UnaryExpression` exactly for the directions `asc`
and `desc`; any other value raises and is answered with 400
"Unknown direction". -/
def directionValid (d : String) : Bool := d == "asc" || d == "desc"

/-- Lexicographic comparison of character lists (the model of the
store's collation for ORDER BY on string columns). -/
def strLeB : List Char → List Char → Bool
  | [], _ => true
  | _ :: _, [] => false
  | a :: as, b :: bs => if a = b then strLeB as bs else decide (a.toNat ≤ b.toNat)

/-- Key order on tags for a given sort attribute. -/
def keyLe (f : SortField) (a b : Tag) : Bool :=
  match f with
  | .id => strLeB a.id.data b.id.data
  | .name => strLeB a.name.data b.name.data
  | .createdAt => decide (a.created_at ≤ b.created_at)
  | .updatedAt => decide (a.updated_at ≤ b.updated_at)

/-- Order used by `ORDER BY <field> <direction>`: `desc` flips the key
order. -/
def tagLe (f : SortField) (dir : String) (a b : Tag) : Bool :=
  if dir == "asc" then keyLe f a b else keyLe f b a

/-- Insert a tag into an already ordered list. -/
def insertLe (le : Tag → Tag → Bool) (t : Tag) : List Tag → List Tag
  | [] => [t]
  | u :: us => if le t u then t :: u :: us else u :: insertLe le t us

/-- Insertion sort: the model of the store's ORDER BY. -/
def sortTags (le : Tag → Tag → Bool) (l : List Tag) : List Tag :=
  l.foldr (insertLe le) []

/-- Flask's request-argument truthiness test `if page and pagesize`:
a missing argument is `None` and an empty string is falsy. -/
def truthyOpt : Option String → Bool
  | none => false
  | some s => !(s == "")

/-- `offset = (page - 1) * pagesize`, clamped to 0 when negative
("page starts from 1"). -/
def pageOffset (p ps : Int) : Nat :=
  (if (p - 1) * ps < 0 then 0 else (p - 1) * ps).toNat

/-- The pagination tail of `TagResource.get`: when both `page` and
`pagesize` are truthy they are converted with `int(...)` (a failure
yielding the 400 naming the offending argument) and
`query.offset(offset).limit(pagesize)` is applied; otherwise the query
is returned whole.  `total` was computed before this step. -/
def paginate (pageArg pagesizeArg : Option String) (sorted : List Tag)
    (total : Nat) : Response :=
  if truthyOpt pageArg && truthyOpt pagesizeArg then
    match pyInt? (pageArg.getD "") with
    | none => .error 400 ("Unknown page " ++ pyRepr (pageArg.getD ""))
    | some p =>
      match pyInt? (pagesizeArg.getD "") with
      | none => .error 400 ("Unknown pagesize " ++ pyRepr (pagesizeArg.getD ""))
      | some ps =>
        .tagsList ((sorted.drop (pageOffset p ps)).take ps.toNat) total
  else .tagsList sorted total

/-- The list branch of `TagResource.get`:
filter by name, filter by `since`, resolve `sort` (default
`updated_at`) and `direction` (default `desc`), count the filtered rows
into `total` before pagination, then paginate.  `pi` is the external
`parse_isotime`. -/
def TagResource.get_list (pi : String → Except String Nat)
    (nameArg sinceArg sortArg dirArg pageArg pagesizeArg : Option String)
    (store : Store) : Response :=
  match sinceFilter pi sinceArg (filterByName nameArg store) with
  | .error msg => .error 400 msg
  | .ok q2 =>
    match sortField? (sortArg.getD "updated_at") with
    | none => .error 400 ("Unknown sort " ++ pyRepr (sortArg.getD "updated_at"))
    | some f =>
      if directionValid (dirArg.getD "desc") then
        paginate pageArg pagesizeArg
          (sortTags (tagLe f (dirArg.getD "desc")) q2)
          (sortTags (tagLe f (dirArg.getD "desc")) q2).length
      else .error 400 ("Unknown direction " ++ pyRepr (dirArg.getD "desc"))

/-- `TagResource._get_by_id`. -/
def TagResource.get_by_id (store : Store) (tag_id : String) : Response :=
  match storeGet store tag_id with
  | none => .error 404 ("Tag " ++ pyRepr tag_id ++ " not found")
  | some t => .tagItem t

/-! ### Mutating handlers -/

/-- The duplicate test applied to `reason = str(ex.orig)`:
`any(word in reason.lower() for word in ["duplicate", "unique"])`. -/
def isDuplicateReason (reason : String) : Bool :=
  listContains "duplicate".data (lowerStr reason) ||
  listContains "unique".data (lowerStr reason)

/-- `TagResource.post` after authentication and envelope extraction:
validate the body with `CreateTagSchema`; on success run the
persistence step (`db.session.add` + `db.session.commit`, supplied as
`persist`).  An `IntegrityError` is rolled back and mapped to 409 (when
the reason signals a duplicate) or to a logged 500 "DB Error" with
`ex.code`; any other `DatabaseError` is not caught and escapes. -/
def TagResource.post (persist : Store → String → Except DBErr (Store × Tag))
    (body : Option String) (store : Store) : HResult :=
  match createSchemaLoad body with
  | .error errs => ⟨.errorFields 400 errs, store, []⟩
  | .ok nm =>
    match persist store nm with
    | .ok (store', t) => ⟨.tagItem t, store', []⟩
    | .error e =>
      if e.integrity then
        if isDuplicateReason e.reason then ⟨.error 409 e.reason, store, [.rollback]⟩
        else ⟨.errorCode 500 "DB Error" e.code, store, [.rollback, .log]⟩
      else ⟨.unhandled e, store, []⟩

/-- `TagResource.put` after authentication and envelope extraction:
validate with `UpdateTagSchema` (400 on errors), then look the tag up
(404 when absent), then run the persistence step
(`tag.update(**result.data)`, supplied as `persist`), with the same
`IntegrityError` mapping as `post`. -/
def TagResource.put (persist : Store → Tag → Option String → Except DBErr (Store × Tag))
    (tag_id : String) (body : Option String) (store : Store) : HResult :=
  match updateSchemaLoad body with
  | .error errs => ⟨.errorFields 400 errs, store, []⟩
  | .ok nameOpt =>
    match storeGet store tag_id with
    | none => ⟨.error 404 ("Tag " ++ pyRepr tag_id ++ " not found"), store, []⟩
    | some tag =>
      match persist store tag nameOpt with
      | .ok (store', t) => ⟨.tagItem t, store', []⟩
      | .error e =>
        if e.integrity then
          if isDuplicateReason e.reason then ⟨.error 409 e.reason, store, [.rollback]⟩
          else ⟨.errorCode 500 "DB Error" e.code, store, [.rollback, .log]⟩
        else ⟨.unhandled e, store, []⟩

/-- `TagResource.delete` after authentication: look the tag up (404
when absent), then run the persistence step (`tag.delete()`, supplied
as `persist`).  Any `DatabaseError` is caught, logged and answered with
500 "DB Error" and `ex.code` — without a rollback. -/
def TagResource.delete (persist : Store → Tag → Except DBErr Store)
    (tag_id : String) (store : Store) : HResult :=
  match storeGet store tag_id with
  | none => ⟨.error 404 ("Tag " ++ pyRepr tag_id ++ " not found"), store, []⟩
  | some tag =>
    match persist store tag with
    | .ok store' => ⟨.deleted, store', []⟩
    | .error e => ⟨.errorCode 500 "DB Error" e.code, store, [.log]⟩

/-! ### Modelled persistence (models.py / the database are not in the
sources) -/

/-- Modelled from the spec: the store's insert + commit for a new tag.
`name` is unique across all tags (spec section 3); a duplicate commit
raises an `IntegrityError` whose reason carries the engine's unique-
constraint marker.  `newId` and `now` stand for the store-assigned id
and timestamps. -/
def storeInsert (newId : String) (now : Nat) (store : Store) (nm : String) :
    Except DBErr (Store × Tag) :=
  if store.any (fun t => t.name == nm) then
    .error ⟨true, "UNIQUE constraint failed: tags.name", "gkpj"⟩
  else
    let t : Tag := ⟨newId, nm, now, now⟩
    .ok (store ++ [t], t)

/-- Modelled from the spec: `tag.update(**data)` applies only the
provided fields and re-persists; with no provided fields nothing
changes, and renaming onto another existing tag's name violates the
unique constraint. -/
def storeUpdate (now : Nat) (store : Store) (tag : Tag)
    (nameOpt : Option String) : Except DBErr (Store × Tag) :=
  match nameOpt with
  | none => .ok (store, tag)
  | some n =>
    if n == tag.name then .ok (store, tag)
    else if store.any (fun u => !(u.id == tag.id) && u.name == n) then
      .error ⟨true, "UNIQUE constraint failed: tags.name", "gkpj"⟩
    else
      let t' : Tag := ⟨tag.id, n, tag.created_at, now⟩
      .ok (store.map (fun u => if u.id == tag.id then t' else u), t')

/-- Modelled from the spec: `tag.delete()` removes the row and commits. -/
def storeDelete (store : Store) (tag : Tag) : Except DBErr Store :=
  .ok (store.filter (fun u => !(u.id == tag.id)))

/-- Formalisation of the spec's words for the name filter: the tag's
name contains `v` as a case-sensitive substring. -/
def specContainsName (v : String) (t : Tag) : Bool :=
  listContains v.data t.name.data

/-! ### Concrete fixtures -/

/-- A `parse_isotime` stand-in that always raises (never reached when
`since` is absent). -/
def pi0 : String → Except String Nat := fun _ => Except.error "unused"

/-- A tag named "ab". -/
def tagAB : Tag := ⟨"1", "ab", 0, 0⟩

/-- The tag produced by inserting name "db" with id "id1" at time 5. -/
def tagDB : Tag := ⟨"id1", "db", 5, 5⟩

/-- A non-integrity `DatabaseError` (e.g. an `OperationalError`). -/
def eDisk : DBErr := ⟨false, "disk I/O error", "e3q8"⟩

/-- An `IntegrityError` whose reason does not signal a duplicate. -/
def eNotNull : DBErr := ⟨true, "NOT NULL constraint failed: tags.name", "gkpj"⟩

/-- An `IntegrityError` carrying the unique-constraint marker. -/
def eUnique : DBErr := ⟨true, "UNIQUE constraint failed: tags.name", "gkpj"⟩

/-- 25 tags with strictly decreasing `updated_at`, so the default
`updated_at desc` order lists them in construction order. -/
def tags25 : Store := (List.range 25).map (fun i => ⟨"x", "n", 0, 1000 - i⟩)

/-! ### Claims about the mutating handlers -/

/-- C2 (amended): for every create or update request whose persistence
step fails with an integrity error that is not a uniqueness/duplicate
violation, the handler rolls back the transaction, logs the error, and
returns a 500 response with message "DB Error" and the error's opaque
code; non-integrity store errors are not caught by these handlers. -/
theorem c2_internal_error_mapping :
    (∀ (persist : Store → String → Except DBErr (Store × Tag))
       (body : Option String) (nm : String) (store : Store) (e : DBErr),
       createSchemaLoad body = .ok nm →
       persist store nm = .error e →
       e.integrity = true →
       isDuplicateReason e.reason = false →
       TagResource.post persist body store =
         ⟨.errorCode 500 "DB Error" e.code, store, [.rollback, .log]⟩) ∧
    (∀ (persist : Store → Tag → Option String → Except DBErr (Store × Tag))
       (tag_id : String) (body : Option String) (nameOpt : Option String)
       (tag : Tag) (store : Store) (e : DBErr),
       updateSchemaLoad body = .ok nameOpt →
       storeGet store tag_id = some tag →
       persist store tag nameOpt = .error e →
       e.integrity = true →
       isDuplicateReason e.reason = false →
       TagResource.put persist tag_id body store =
         ⟨.errorCode 500 "DB Error" e.code, store, [.rollback, .log]⟩) := by
  constructor
  · intro persist body nm store e hl hp hi hd
    simp [TagResource.post, hl, hp, hi, hd]
  · intro persist tag_id body nameOpt tag store e hl hg hp hi hd
    simp [TagResource.put, hl, hg, hp, hi, hd]

theorem c2_internal_error_mapping_witness :
    TagResource.post (fun _ _ => Except.error eNotNull) (some "db") [] =
      ⟨.errorCode 500 "DB Error" eNotNull.code, [], [.rollback, .log]⟩ :=
  c2_internal_error_mapping.1 (fun _ _ => Except.error eNotNull) (some "db")
    "db" [] eNotNull rfl rfl rfl rfl

/-- C2 (counterexample to the claim as stated): a create whose
persistence step fails with a non-integrity store error (here an
operational "disk I/O error") is neither rolled back nor answered with
500 "DB Error": the exception escapes the handler untouched. -/
theorem c2_counterexample :
    TagResource.post (fun _ _ => Except.error eDisk) (some "db") [] =
      ⟨.unhandled eDisk, [], []⟩ ∧
    Response.unhandled eDisk ≠ Response.errorCode 500 "DB Error" eDisk.code ∧
    Action.rollback ∉ ([] : List Action) :=
  ⟨rfl, by decide, by decide⟩

/-- C3: the delete handler violates the rollback requirement: on a
store error during deletion it returns 500 "DB Error" having only
logged, with no rollback action, unlike create/update which roll back
caught errors. -/
theorem c3_delete_no_rollback :
    TagResource.delete (fun _ _ => Except.error eDisk) "1" [⟨"1", "db", 0, 0⟩] =
      ⟨.errorCode 500 "DB Error" "e3q8", [⟨"1", "db", 0, 0⟩], [.log]⟩ ∧
    Action.rollback ∉ [Action.log] :=
  ⟨rfl, by decide⟩

/-- C5: a create or update whose persistence step fails with the
store's uniqueness/duplicate signal is rolled back and answered with
409 carrying the store's reason string; and creating two tags with the
same name yields one success and one 409. -/
theorem c5_duplicate_conflict :
    (∀ (persist : Store → String → Except DBErr (Store × Tag))
       (body : Option String) (nm : String) (store : Store) (e : DBErr),
       createSchemaLoad body = .ok nm →
       persist store nm = .error e →
       e.integrity = true →
       isDuplicateReason e.reason = true →
       TagResource.post persist body store =
         ⟨.error 409 e.reason, store, [.rollback]⟩) ∧
    (∀ (persist : Store → Tag → Option String → Except DBErr (Store × Tag))
       (tag_id : String) (body : Option String) (nameOpt : Option String)
       (tag : Tag) (store : Store) (e : DBErr),
       updateSchemaLoad body = .ok nameOpt →
       storeGet store tag_id = some tag →
       persist store tag nameOpt = .error e →
       e.integrity = true →
       isDuplicateReason e.reason = true →
       TagResource.put persist tag_id body store =
         ⟨.error 409 e.reason, store, [.rollback]⟩) ∧
    TagResource.post (storeInsert "id1" 5) (some "db") [] =
      ⟨.tagItem tagDB, [tagDB], []⟩ ∧
    TagResource.post (storeInsert "id2" 6) (some "db") [tagDB] =
      ⟨.error 409 "UNIQUE constraint failed: tags.name", [tagDB], [.rollback]⟩ := by
  refine ⟨?_, ?_, by decide, by decide⟩
  · intro persist body nm store e hl hp hi hd
    simp [TagResource.post, hl, hp, hi, hd]
  · intro persist tag_id body nameOpt tag store e hl hg hp hi hd
    simp [TagResource.put, hl, hg, hp, hi, hd]

theorem c5_duplicate_conflict_witness :
    TagResource.put (fun _ _ _ => Except.error eUnique) "1" (some "web")
      [tagAB] = ⟨.error 409 eUnique.reason, [tagAB], [.rollback]⟩ :=
  c5_duplicate_conflict.2.1 (fun _ _ _ => Except.error eUnique) "1"
    (some "web") (some "web") tagAB [tagAB] eUnique rfl rfl rfl rfl rfl

/-- C8: an update whose body omits `name` leaves the stored tag (in
particular its name) unchanged and returns the unchanged tag; an update
with `name = ""` fails validation with 400 before any persistence, for
every persistence function, leaving the store unchanged. -/
theorem c8_partial_update :
    (∀ (store : Store) (tag_id : String) (tag : Tag) (now : Nat),
       storeGet store tag_id = some tag →
       TagResource.put (storeUpdate now) tag_id none store =
         ⟨.tagItem tag, store, []⟩) ∧
    (∀ (persist : Store → Tag → Option String → Except DBErr (Store × Tag))
       (tag_id : String) (store : Store),
       TagResource.put persist tag_id (some "") store =
         ⟨.errorFields 400 [.nameTooShort], store, []⟩) := by
  constructor
  · intro store tag_id tag now hg
    simp [TagResource.put, updateSchemaLoad, hg, storeUpdate]
  · intro persist tag_id store
    rfl

theorem c8_partial_update_witness :
    TagResource.put (storeUpdate 7) "1" none [tagAB] =
      ⟨.tagItem tagAB, [tagAB], []⟩ :=
  c8_partial_update.1 [tagAB] "1" tagAB 7 rfl

/-- C10: an update whose body fails schema validation is answered with
400 even when the target id is absent from the store: validation runs
before the existence lookup, so 400 takes precedence over 404. -/
theorem c10_validation_precedes_lookup :
    ∀ (persist : Store → Tag → Option String → Except DBErr (Store × Tag))
      (tag_id : String) (body : Option String) (store : Store)
      (errs : List FieldError),
      updateSchemaLoad body = .error errs →
      storeGet store tag_id = none →
      TagResource.put persist tag_id body store =
        ⟨.errorFields 400 errs, store, []⟩ := by
  intro persist tag_id body store errs hl _hg
  simp [TagResource.put, hl]

theorem c10_validation_precedes_lookup_witness :
    TagResource.put (storeUpdate 0) "zzz" (some "") [] =
      ⟨.errorFields 400 [.nameTooShort], [], []⟩ :=
  c10_validation_precedes_lookup (storeUpdate 0) "zzz" (some "") []
    [.nameTooShort] rfl rfl

/-! ### Lemmas about the list pipeline -/

theorem length_insertLe (le : Tag → Tag → Bool) (t : Tag) (l : List Tag) :
    (insertLe le t l).length = l.length + 1 := by
  induction l with
  | nil => rfl
  | cons u us ih =>
    simp only [insertLe]
    split
    · simp
    · simp [ih]

theorem length_sortTags (le : Tag → Tag → Bool) (l : List Tag) :
    (sortTags le l).length = l.length := by
  induction l with
  | nil => rfl
  | cons t ts ih =>
    show (insertLe le t (sortTags le ts)).length = ts.length + 1
    rw [length_insertLe, ih]

theorem paginate_total (pageArg pagesizeArg : Option String)
    (sorted : List Tag) (total : Nat) (tags : List Tag) (tot : Nat)
    (h : paginate pageArg pagesizeArg sorted total = .tagsList tags tot) :
    tot = total := by
  unfold paginate at h
  split at h
  · rcases hp : pyInt? (pageArg.getD "") with _ | p
    · rw [hp] at h; simp at h
    · rw [hp] at h
      rcases hps : pyInt? (pagesizeArg.getD "") with _ | ps
      · rw [hps] at h; simp at h
      · rw [hps] at h
        injection h with _ h2
        exact h2.symm
  · injection h with _ h2
    exact h2.symm

theorem get_list_success_inv (pi : String → Except String Nat)
    (nameArg sinceArg sortArg dirArg pageArg pagesizeArg : Option String)
    (store : Store) (tags : List Tag) (tot : Nat)
    (h : TagResource.get_list pi nameArg sinceArg sortArg dirArg pageArg
      pagesizeArg store = .tagsList tags tot) :
    ∃ q2, sinceFilter pi sinceArg (filterByName nameArg store) = .ok q2 ∧
      tot = q2.length := by
  unfold TagResource.get_list at h
  split at h
  · simp at h
  · rename_i q2 hs
    split at h
    · simp at h
    · rename_i f hf
      split at h
      · have htot := paginate_total _ _ _ _ _ _ h
        exact ⟨q2, hs, htot.trans (length_sortTags _ _)⟩
      · simp at h

/-! ### Claims about the list handler -/

/-- C1: the `total` of a successful list response equals the number of
tags passing the name and since filters before pagination, and two list
requests differing only in `page`/`pagesize` report the same total. -/
theorem c1_total_is_prepagination_count :
    ∀ (pi : String → Except String Nat)
      (nameArg sinceArg sortArg dirArg p1 s1 p2 s2 : Option String)
      (store : Store) (tags1 tags2 : List Tag) (tot1 tot2 : Nat),
      TagResource.get_list pi nameArg sinceArg sortArg dirArg p1 s1 store =
        .tagsList tags1 tot1 →
      TagResource.get_list pi nameArg sinceArg sortArg dirArg p2 s2 store =
        .tagsList tags2 tot2 →
      (∃ q2, sinceFilter pi sinceArg (filterByName nameArg store) =
        Except.ok q2 ∧ tot1 = q2.length) ∧ tot2 = tot1 := by
  intro pi nameArg sinceArg sortArg dirArg p1 s1 p2 s2 store tags1 tags2
    tot1 tot2 h1 h2
  obtain ⟨q, hq, ht1⟩ := get_list_success_inv _ _ _ _ _ _ _ _ _ _ h1
  obtain ⟨q', hq', ht2⟩ := get_list_success_inv _ _ _ _ _ _ _ _ _ _ h2
  have hqq : q = q' := by
    have := hq.symm.trans hq'
    exact Except.ok.inj this
  exact ⟨⟨q, hq, ht1⟩, by rw [ht2, ← hqq, ht1]⟩

theorem c1_total_is_prepagination_count_witness :
    (∃ q2, sinceFilter pi0 none (filterByName none [tagAB]) =
      Except.ok q2 ∧ 1 = q2.length) ∧ 1 = 1 :=
  c1_total_is_prepagination_count pi0 none none none none (some "1")
    (some "1") none none [tagAB] [tagAB] [tagAB] 1 1 (by decide) (by decide)

/-- C6: an unresolvable `sort` value is answered with 400
"Unknown sort <value>", a direction other than asc/desc with 400
"Unknown direction <value>", and the defaults are `updated_at` and
`desc`. -/
theorem c6_sort_direction_validation :
    (∀ (pi : String → Except String Nat)
       (nameArg sinceArg dirArg pageArg pagesizeArg : Option String)
       (store q2 : Store) (v : String),
       sinceFilter pi sinceArg (filterByName nameArg store) = Except.ok q2 →
       sortField? v = none →
       TagResource.get_list pi nameArg sinceArg (some v) dirArg pageArg
         pagesizeArg store = .error 400 ("Unknown sort " ++ pyRepr v)) ∧
    (∀ (pi : String → Except String Nat)
       (nameArg sinceArg sortArg pageArg pagesizeArg : Option String)
       (store q2 : Store) (f : SortField) (d : String),
       sinceFilter pi sinceArg (filterByName nameArg store) = Except.ok q2 →
       sortField? (sortArg.getD "updated_at") = some f →
       d ≠ "asc" → d ≠ "desc" →
       TagResource.get_list pi nameArg sinceArg sortArg (some d) pageArg
         pagesizeArg store = .error 400 ("Unknown direction " ++ pyRepr d)) ∧
    (∀ (pi : String → Except String Nat)
       (nameArg sinceArg dirArg pageArg pagesizeArg : Option String)
       (store : Store),
       TagResource.get_list pi nameArg sinceArg none dirArg pageArg
         pagesizeArg store =
       TagResource.get_list pi nameArg sinceArg (some "updated_at") dirArg
         pageArg pagesizeArg store) ∧
    (∀ (pi : String → Except String Nat)
       (nameArg sinceArg sortArg pageArg pagesizeArg : Option String)
       (store : Store),
       TagResource.get_list pi nameArg sinceArg sortArg none pageArg
         pagesizeArg store =
       TagResource.get_list pi nameArg sinceArg sortArg (some "desc") pageArg
         pagesizeArg store) := by
  refine ⟨?_, ?_, fun _ _ _ _ _ _ _ => rfl, fun _ _ _ _ _ _ _ => rfl⟩
  · intro pi nameArg sinceArg dirArg pageArg pagesizeArg store q2 v hs hf
    simp [TagResource.get_list, hs, hf]
  · intro pi nameArg sinceArg sortArg pageArg pagesizeArg store q2 f d hs hf
      hd1 hd2
    have hdv : directionValid d = false := by
      simp [directionValid, hd1, hd2]
    simp [TagResource.get_list, hs, hf, hdv]

theorem c6_sort_direction_validation_witness :
    TagResource.get_list pi0 none none (some "bogus") none none none [] =
      .error 400 ("Unknown sort " ++ pyRepr "bogus") ∧
    TagResource.get_list pi0 none none none (some "bogus") none none [] =
      .error 400 ("Unknown direction " ++ pyRepr "bogus") :=
  ⟨c6_sort_direction_validation.1 pi0 none none none none none [] [] "bogus"
      rfl rfl,
    c6_sort_direction_validation.2.1 pi0 none none none none none [] []
      .updatedAt "bogus" rfl rfl (by decide) (by decide)⟩

/-- C7: with integer `page` and `pagesize`, the rows returned are the
filtered, sorted rows from offset `(page-1)*pagesize` (clamped to 0
when negative), at most `pagesize` of them, with `total` the
pre-pagination count; with 25 rows, page 1/pagesize 10 yields rows
1-10 and page 3 yields rows 21-25, each with total 25. -/
theorem c7_offset_limit :
    (∀ (pi : String → Except String Nat)
       (nameArg sinceArg sortArg dirArg : Option String) (pStr psStr : String)
       (store q2 : Store) (f : SortField) (p ps : Int),
       sinceFilter pi sinceArg (filterByName nameArg store) = Except.ok q2 →
       sortField? (sortArg.getD "updated_at") = some f →
       directionValid (dirArg.getD "desc") = true →
       pyInt? pStr = some p →
       pyInt? psStr = some ps →
       TagResource.get_list pi nameArg sinceArg sortArg dirArg (some pStr)
         (some psStr) store =
         .tagsList
           (((sortTags (tagLe f (dirArg.getD "desc")) q2).drop
             (pageOffset p ps)).take ps.toNat)
           (sortTags (tagLe f (dirArg.getD "desc")) q2).length) ∧
    TagResource.get_list pi0 none none none none (some "1") (some "10")
      tags25 = .tagsList (tags25.take 10) 25 ∧
    TagResource.get_list pi0 none none none none (some "3") (some "10")
      tags25 = .tagsList (tags25.drop 20) 25 := by
  refine ⟨?_, by decide, by decide⟩
  intro pi nameArg sinceArg sortArg dirArg pStr psStr store q2 f p ps hs hf
    hd hp hps
  have hempty : pyInt? "" = none := by decide
  have hne1 : pStr ≠ "" := by
    intro hx; rw [hx, hempty] at hp; exact Option.noConfusion hp
  have hne2 : psStr ≠ "" := by
    intro hx; rw [hx, hempty] at hps; exact Option.noConfusion hps
  have hb1 : (pStr == "") = false := by simp [hne1]
  have hb2 : (psStr == "") = false := by simp [hne2]
  simp [TagResource.get_list, hs, hf, hd, paginate, truthyOpt, hb1, hb2,
    hp, hps]

theorem c7_offset_limit_witness :
    TagResource.get_list pi0 none none none none (some "2") (some "10")
      tags25 =
      .tagsList
        (((sortTags (tagLe .updatedAt "desc") tags25).drop
          (pageOffset 2 10)).take (10 : Int).toNat)
        (sortTags (tagLe .updatedAt "desc") tags25).length :=
  c7_offset_limit.1 pi0 none none none none "2" "10" tags25 tags25
    .updatedAt 2 10 rfl rfl rfl (by decide) (by decide)

theorem get_list_no_pagination_aux (pi : String → Except String Nat)
    (nameArg sinceArg sortArg dirArg pageArg pagesizeArg : Option String)
    (store q2 : Store) (f : SortField)
    (hs : sinceFilter pi sinceArg (filterByName nameArg store) = Except.ok q2)
    (hf : sortField? (sortArg.getD "updated_at") = some f)
    (hd : directionValid (dirArg.getD "desc") = true)
    (hpp : (truthyOpt pageArg && truthyOpt pagesizeArg) = false) :
    TagResource.get_list pi nameArg sinceArg sortArg dirArg pageArg
      pagesizeArg store =
      .tagsList (sortTags (tagLe f (dirArg.getD "desc")) q2)
        (sortTags (tagLe f (dirArg.getD "desc")) q2).length := by
  simp [TagResource.get_list, hs, hf, hd, paginate, hpp]

/-- C9: a list request that supplies only one of `page`/`pagesize`, or
either of them as the empty string, applies no pagination and returns
all filtered, sorted rows with the full total. -/
theorem c9_pagination_requires_both :
    ∀ (pi : String → Except String Nat)
      (nameArg sinceArg sortArg dirArg pageArg pagesizeArg : Option String)
      (store q2 : Store) (f : SortField),
      sinceFilter pi sinceArg (filterByName nameArg store) = Except.ok q2 →
      sortField? (sortArg.getD "updated_at") = some f →
      directionValid (dirArg.getD "desc") = true →
      (truthyOpt pageArg && truthyOpt pagesizeArg) = false →
      TagResource.get_list pi nameArg sinceArg sortArg dirArg pageArg
        pagesizeArg store =
        .tagsList (sortTags (tagLe f (dirArg.getD "desc")) q2)
          (sortTags (tagLe f (dirArg.getD "desc")) q2).length := by
  intro pi nameArg sinceArg sortArg dirArg pageArg pagesizeArg store q2 f
    hs hf hd hpp
  exact get_list_no_pagination_aux pi nameArg sinceArg sortArg dirArg
    pageArg pagesizeArg store q2 f hs hf hd hpp

theorem c9_pagination_requires_both_witness :
    TagResource.get_list pi0 none none none none (some "5") none [tagAB] =
      .tagsList [tagAB] 1 ∧
    TagResource.get_list pi0 none none none none (some "") (some "3")
      [tagAB] = .tagsList [tagAB] 1 :=
  ⟨c9_pagination_requires_both pi0 none none none none (some "5") none
      [tagAB] [tagAB] .updatedAt rfl rfl rfl rfl,
    c9_pagination_requires_both pi0 none none none none (some "")
      (some "3") [tagAB] [tagAB] .updatedAt rfl rfl rfl rfl⟩

/-! ### The LIKE pattern versus plain substring containment -/

theorem beginsWith_iff (sub : List Char) :
    ∀ t : List Char, beginsWith sub t = true ↔ ∃ r, sub ++ r = t := by
  induction sub with
  | nil => intro t; simp [beginsWith]
  | cons c cs ih =>
    intro t
    cases t with
    | nil => simp [beginsWith]
    | cons d ds =>
      simp only [beginsWith, Bool.and_eq_true, beq_iff_eq, ih,
        List.cons_append, List.cons.injEq]
      constructor
      · rintro ⟨rfl, r, rfl⟩
        exact ⟨r, rfl, rfl⟩
      · rintro ⟨r, rfl, rfl⟩
        exact ⟨rfl, r, rfl⟩

theorem mem_suffixes (l : List Char) :
    ∀ t : List Char, t ∈ suffixes l ↔ ∃ s1, s1 ++ t = l := by
  induction l with
  | nil =>
    intro t
    simp only [suffixes, List.mem_singleton]
    constructor
    · rintro rfl; exact ⟨[], rfl⟩
    · rintro ⟨s1, h⟩; exact (List.append_eq_nil.mp h).2
  | cons c cs ih =>
    intro t
    simp only [suffixes, List.mem_cons, ih]
    constructor
    · rintro (rfl | ⟨s1, rfl⟩)
      · exact ⟨[], rfl⟩
      · exact ⟨c :: s1, rfl⟩
    · rintro ⟨s1, h⟩
      cases s1 with
      | nil =>
        have ht : t = c :: cs := by simpa using h
        exact Or.inl ht
      | cons a s1' =>
        injection h with h1 h2
        exact Or.inr ⟨s1', h2⟩

theorem nil_mem_suffixes (l : List Char) : [] ∈ suffixes l :=
  (mem_suffixes l []).mpr ⟨l, by simp⟩

theorem listContains_iff (sub l : List Char) :
    listContains sub l = true ↔ ∃ s1 s2, s1 ++ sub ++ s2 = l := by
  simp only [listContains, List.any_eq_true, mem_suffixes, beginsWith_iff]
  constructor
  · rintro ⟨t, ⟨s1, rfl⟩, r, rfl⟩
    exact ⟨s1, r, by simp⟩
  · rintro ⟨s1, s2, rfl⟩
    exact ⟨sub ++ s2, ⟨s1, by simp⟩, s2, rfl⟩

theorem likeMatch_percent (ps : List Char) (s : List Char) :
    likeMatch ('%' :: ps) s = (suffixes s).any (fun t => likeMatch ps t) := by
  simp [likeMatch]

theorem likeMatch_all (s : List Char) : likeMatch ['%'] s = true := by
  rw [likeMatch_percent]
  simp only [List.any_eq_true]
  exact ⟨[], nil_mem_suffixes s, rfl⟩

theorem likeMatch_lit_append (v : List Char)
    (hv : ∀ c ∈ v, c ≠ '%' ∧ c ≠ '_') (ps : List Char) :
    ∀ s : List Char,
      likeMatch (v ++ ps) s = true ↔ ∃ r, v ++ r = s ∧ likeMatch ps r = true := by
  induction v with
  | nil => intro s; simp
  | cons c cs ih =>
    intro s
    have hc := hv c (List.mem_cons_self c cs)
    have ihcs := ih (fun x hx => hv x (List.mem_cons_of_mem c hx))
    cases s with
    | nil =>
      simp only [List.cons_append, likeMatch, if_neg hc.1]
      simp
    | cons d ds =>
      simp only [List.cons_append, likeMatch, if_neg hc.1]
      have hund : (c == '_') = false := by simp [hc.2]
      constructor
      · intro h
        rw [Bool.and_eq_true] at h
        obtain ⟨h1, h2⟩ := h
        rw [hund, Bool.false_or, beq_iff_eq] at h1
        obtain ⟨r, hr1, hr2⟩ := (ihcs ds).mp h2
        subst h1
        exact ⟨r, by rw [hr1], hr2⟩
      · rintro ⟨r, hr1, hr2⟩
        injection hr1 with hd1 hd2
        rw [Bool.and_eq_true, hund, Bool.false_or, beq_iff_eq]
        exact ⟨hd1, (ihcs ds).mpr ⟨r, hd2, hr2⟩⟩

theorem likeMatch_contains (v : List Char)
    (hv : ∀ c ∈ v, c ≠ '%' ∧ c ≠ '_') (s : List Char) :
    likeMatch ('%' :: (v ++ ['%'])) s = listContains v s := by
  have hiff : likeMatch ('%' :: (v ++ ['%'])) s = true ↔
      listContains v s = true := by
    rw [likeMatch_percent, listContains_iff]
    simp only [List.any_eq_true, mem_suffixes]
    constructor
    · rintro ⟨t, ⟨s1, rfl⟩, hm⟩
      rw [likeMatch_lit_append v hv ['%'] t] at hm
      obtain ⟨r, rfl, _⟩ := hm
      exact ⟨s1, r, by simp⟩
    · rintro ⟨s1, s2, rfl⟩
      refine ⟨v ++ s2, ⟨s1, by simp⟩, ?_⟩
      rw [likeMatch_lit_append v hv ['%'] (v ++ s2)]
      exact ⟨s2, rfl, likeMatch_all s2⟩
  cases hL : likeMatch ('%' :: (v ++ ['%'])) s <;>
    cases hC : listContains v s <;> simp_all

theorem filterByName_no_wildcards (v : String)
    (hv : ∀ c ∈ v.data, c ≠ '%' ∧ c ≠ '_') (store : Store) :
    filterByName (some v) store =
      store.filter (fun t => specContainsName v t) := by
  unfold filterByName specContainsName
  exact List.filter_congr (fun t _ => likeMatch_contains v.data hv t.name.data)

/-- C4 (counterexample to the claim as stated): the name filter passes
the query value into a SQL LIKE pattern unescaped, so `name=a_` matches
the tag named "ab" although "a_" is not a substring of "ab". -/
theorem c4_counterexample :
    TagResource.get_list pi0 (some "a_") none none none none none [tagAB] =
      .tagsList [tagAB] 1 ∧
    specContainsName "a_" tagAB = false :=
  ⟨by decide, by decide⟩

/-- C4 (amended): for a `name` value free of the LIKE wildcards `%` and
`_`, an unpaginated successful listing returns exactly the tags whose
name contains the value as a case-sensitive substring (in sorted
order); values containing wildcards are interpreted as LIKE patterns
instead. -/
theorem c4_name_filter_contains :
    ∀ (pi : String → Except String Nat)
      (sortArg dirArg pageArg pagesizeArg : Option String) (store : Store)
      (v : String) (f : SortField) (tags : List Tag) (tot : Nat),
      (∀ c ∈ v.data, c ≠ '%' ∧ c ≠ '_') →
      sortField? (sortArg.getD "updated_at") = some f →
      directionValid (dirArg.getD "desc") = true →
      (truthyOpt pageArg && truthyOpt pagesizeArg) = false →
      TagResource.get_list pi (some v) none sortArg dirArg pageArg
        pagesizeArg store = .tagsList tags tot →
      tags = sortTags (tagLe f (dirArg.getD "desc"))
        (store.filter (fun t => specContainsName v t)) := by
  intro pi sortArg dirArg pageArg pagesizeArg store v f tags tot hv hf hd
    hpp h
  have hall : TagResource.get_list pi (some v) none sortArg dirArg pageArg
      pagesizeArg store =
      .tagsList (sortTags (tagLe f (dirArg.getD "desc"))
          (filterByName (some v) store))
        (sortTags (tagLe f (dirArg.getD "desc"))
          (filterByName (some v) store)).length :=
    get_list_no_pagination_aux pi (some v) none sortArg dirArg pageArg
      pagesizeArg store (filterByName (some v) store) f rfl hf hd hpp
  rw [hall] at h
  injection h with h1 _
  rw [← h1, filterByName_no_wildcards v hv store]

theorem c4_name_filter_contains_witness :
    [⟨"1", "abc", 0, 0⟩] = sortTags (tagLe .updatedAt "desc")
      (([⟨"1", "abc", 0, 0⟩, ⟨"2", "xyz", 1, 1⟩] : Store).filter
        (fun t => specContainsName "b" t)) :=
  c4_name_filter_contains pi0 none none none none
    [⟨"1", "abc", 0, 0⟩, ⟨"2", "xyz", 1, 1⟩] "b" .updatedAt
    [⟨"1", "abc", 0, 0⟩] 1 (by decide) rfl rfl rfl (by decide)

end SillyBlog
